import Mathlib

/-!
Verification of the movement-daily reconciliation dashboard.

The application (src/app.py) loads pre-aggregated rows from the database
view `public.mv_movement_daily`, counts the rows flagged "Tidak Sesuai",
renames the columns, normalizes the numeric columns with
`fillna(0).round(0).astype("int64")`, and styles the table by highlighting
rows whose status is "Tidak Sesuai".  The reconciliation rule itself
(status flag and gap) is computed upstream by the database view, whose code
is not part of the application file; where a claim depends on it we model
it from the specification.
-/

namespace MovementDaily

/-- Round half to even (banker's rounding), the convention used by
`pandas.Series.round(0)` (numpy `around`). -/
def roundHalfEven (q : ℚ) : ℤ :=
  if q - q.floor < 1/2 then q.floor
  else if 1/2 < q - q.floor then q.floor + 1
  else if q.floor % 2 = 0 then q.floor else q.floor + 1

/-- Embeds `df[col].fillna(0).round(0).astype("int64")` applied to one cell:
an absent value becomes 0, then the value is rounded half-to-even to an
integer. -/
def normalizeNum (v : Option ℚ) : ℤ :=
  roundHalfEven (v.getD 0)

/-- One raw row of the `mv_movement_daily` view, as selected by `load_data`
in src/app.py.  Numeric cells and identity cells may be NULL in the
database, hence `Option`. -/
structure RawRow where
  tanggal : Option String
  outlet : Option String
  spv : Option String
  kota : Option String
  item : Option String
  stock_awal : Option ℚ
  stock_masuk : Option ℚ
  qty_terpakai : Option ℚ
  qty_sisa : Option ℚ
  ideal_usage_qty : Option ℚ
  retur_qty : Option ℚ
  qty_sisa_seharusnya : Option ℚ
  gap_qty_sisa : Option ℚ
  so_flag : String
  deriving Repr, DecidableEq

/-- A row after the `df.rename(columns=...)` step: same cells, presentation
column names. -/
structure RenamedRow where
  tanggal : Option String
  outlet : Option String
  spv : Option String
  kota : Option String
  item : Option String
  stokAwalHari : Option ℚ
  barangMasukDC : Option ℚ
  terpakaiTerjual : Option ℚ
  sisaStokAkhir : Option ℚ
  pemakaianSeharusnya : Option ℚ
  barangRetur : Option ℚ
  sisaSeharusnya : Option ℚ
  selisihSisa : Option ℚ
  statusStok : String
  deriving Repr, DecidableEq

/-- A row after the numeric-column normalization loop: the eight numeric
columns are integers, the identity and status columns are untouched. -/
structure ProcessedRow where
  tanggal : Option String
  outlet : Option String
  spv : Option String
  kota : Option String
  item : Option String
  stokAwalHari : ℤ
  barangMasukDC : ℤ
  terpakaiTerjual : ℤ
  sisaStokAkhir : ℤ
  pemakaianSeharusnya : ℤ
  barangRetur : ℤ
  sisaSeharusnya : ℤ
  selisihSisa : ℤ
  statusStok : String
  deriving Repr, DecidableEq

/-- The `df.rename(columns={...})` step of src/app.py. -/
def renameColumns (r : RawRow) : RenamedRow :=
  { tanggal := r.tanggal
    outlet := r.outlet
    spv := r.spv
    kota := r.kota
    item := r.item
    stokAwalHari := r.stock_awal
    barangMasukDC := r.stock_masuk
    terpakaiTerjual := r.qty_terpakai
    sisaStokAkhir := r.qty_sisa
    pemakaianSeharusnya := r.ideal_usage_qty
    barangRetur := r.retur_qty
    sisaSeharusnya := r.qty_sisa_seharusnya
    selisihSisa := r.gap_qty_sisa
    statusStok := r.so_flag }

/-- The `for col in numeric_cols: df[col] = df[col].fillna(0).round(0)
.astype("int64")` loop of src/app.py, applied to one row. -/
def normalizeRow (r : RenamedRow) : ProcessedRow :=
  { tanggal := r.tanggal
    outlet := r.outlet
    spv := r.spv
    kota := r.kota
    item := r.item
    stokAwalHari := normalizeNum r.stokAwalHari
    barangMasukDC := normalizeNum r.barangMasukDC
    terpakaiTerjual := normalizeNum r.terpakaiTerjual
    sisaStokAkhir := normalizeNum r.sisaStokAkhir
    pemakaianSeharusnya := normalizeNum r.pemakaianSeharusnya
    barangRetur := normalizeNum r.barangRetur
    sisaSeharusnya := normalizeNum r.sisaSeharusnya
    selisihSisa := normalizeNum r.selisihSisa
    statusStok := r.statusStok }

/-- Rename followed by numeric normalization: the per-row part of the
src/app.py dataframe pipeline. -/
def processRow (r : RawRow) : ProcessedRow :=
  normalizeRow (renameColumns r)

/-- Embeds `tidak_sesuai = (df["so_flag"] == "Tidak Sesuai").sum()`
(src/app.py line 147). -/
def aggregate_mismatch_count (rows : List RawRow) : Nat :=
  rows.countP (fun r => r.so_flag == "Tidak Sesuai")

/-- The user-visible outcomes of the page after data loading: the empty
warning from the `df.empty` guard, the rendered report, or the fatal
configuration error shown earlier for missing environment variables. -/
inductive PipelineOutput where
  | configError (missingVars : List String)
  | emptyWarning
  | report (mismatchCount : Nat) (table : List ProcessedRow)
  deriving Repr, DecidableEq

/-- The post-load control flow of src/app.py: warn and stop when the
filtered result set is empty, otherwise count the mismatches and render
the renamed, normalized table. -/
def runPipeline (rows : List RawRow) : PipelineOutput :=
  if rows.isEmpty then PipelineOutput.emptyWarning
  else PipelineOutput.report (aggregate_mismatch_count rows) (rows.map processRow)

/-- The fourteen presentation columns of the rendered table, in the order
created by the rename step. -/
def tableColumns : List String :=
  ["Tanggal", "Outlet", "SPV", "Kota", "Item",
   "Stok Awal Hari", "Barang Masuk (DC)", "Terpakai / Terjual",
   "Sisa Stok Akhir", "Pemakaian Seharusnya", "Barang Retur",
   "Sisa Seharusnya", "Selisih Sisa", "Status Stok"]

/-- The columns highlighted for mismatching rows (src/app.py
`highlight_cols`). -/
def highlight_cols : List String :=
  ["Tanggal", "Outlet", "SPV", "Kota", "Item", "Status Stok"]

/-- The CSS snippet applied to highlighted cells. -/
def highlightStyle : String :=
  "background-color: #ffcccc; font-weight: bold;"

/-- Embeds `highlight_tidak_sesuai(row)` of src/app.py: one style string
per column of the row, highlighted when the row's status is
"Tidak Sesuai" and the column is a highlight column. -/
def highlight_tidak_sesuai (r : ProcessedRow) : List String :=
  tableColumns.map (fun col =>
    if r.statusStok = "Tidak Sesuai" ∧ col ∈ highlight_cols then highlightStyle
    else "")

/-- Embeds `df.style.apply(highlight_tidak_sesuai, axis=1)`: a pandas
Styler keeps the data unchanged and attaches a style list to each row. -/
def styleTable (rows : List ProcessedRow) : List (ProcessedRow × List String) :=
  rows.map (fun r => (r, highlight_tidak_sesuai r))

/-- Modelled from the spec: the database view computes the displayed gap
column as the difference of the raw closing stock and the raw expected
closing stock, before the application rounds the columns; SQL NULL
propagates through the subtraction.  The view's SQL is not part of the
application file. -/
def upstreamGap (qty_sisa qty_sisa_seharusnya : Option ℚ) : Option ℚ :=
  match qty_sisa, qty_sisa_seharusnya with
  | some a, some b => some (a - b)
  | _, _ => none

/-- Modelled from the spec: the policy selecting which equality defines a
MATCH. -/
inductive Policy where
  | CLOSING_STOCK
  | CONSUMPTION
  deriving Repr, DecidableEq

/-- Modelled from the spec: the binary reconciliation status. -/
inductive Status where
  | MATCH
  | MISMATCH
  deriving Repr, DecidableEq

/-- The rendering of the status in the dashboard: MATCH is "Sesuai",
MISMATCH is "Tidak Sesuai". -/
def Status.label : Status → String
  | Status.MATCH => "Sesuai"
  | Status.MISMATCH => "Tidak Sesuai"

/-- Modelled from the spec: the error raised when an identity field is
absent. -/
inductive ReconcileError where
  | InvalidRecord
  deriving Repr, DecidableEq

/-- Modelled from the spec: one raw movement record handed to the
reconciliation engine; identity fields and numeric fields may be
absent. -/
structure MovementRecord where
  date : Option String
  outlet : Option String
  supervisor : Option String
  city : Option String
  item : Option String
  opening_stock : Option ℚ
  inbound_qty : Option ℚ
  consumed_qty : Option ℚ
  returned_qty : Option ℚ
  expected_usage_qty : Option ℚ
  closing_stock : Option ℚ
  expected_closing_stock : Option ℚ
  deriving Repr, DecidableEq

/-- Modelled from the spec: the fully derived record returned by the
engine. -/
structure DerivedRecord where
  date : String
  outlet : String
  item : String
  opening_stock : ℤ
  inbound_qty : ℤ
  consumed_qty : ℤ
  returned_qty : ℤ
  expected_usage_qty : ℤ
  closing_stock : ℤ
  expected_closing_stock : ℤ
  gap_qty : ℤ
  status : Status
  deriving Repr, DecidableEq

/-- Modelled from the spec: `reconcile(record, policy)`.  The engine code
is not part of the application file (the status flag is computed by the
upstream database view); this follows §4.1 of the spec: fail with
`InvalidRecord` when `date`, `outlet` or `item` is absent, normalize the
numeric fields (absent means zero, then round half-to-even), compute
`gap_qty = closing_stock - expected_closing_stock`, and set the status
from the policy-selected equality. -/
def reconcile (r : MovementRecord) (p : Policy) :
    Except ReconcileError DerivedRecord :=
  match r.date, r.outlet, r.item with
  | some d, some o, some i =>
    let opening := normalizeNum r.opening_stock
    let inbound := normalizeNum r.inbound_qty
    let consumed := normalizeNum r.consumed_qty
    let returned := normalizeNum r.returned_qty
    let expectedUsage := normalizeNum r.expected_usage_qty
    let closing := normalizeNum r.closing_stock
    let expectedClosing := normalizeNum r.expected_closing_stock
    let st :=
      match p with
      | Policy.CLOSING_STOCK =>
        if closing = expectedClosing then Status.MATCH else Status.MISMATCH
      | Policy.CONSUMPTION =>
        if consumed = expectedUsage then Status.MATCH else Status.MISMATCH
    Except.ok
      { date := d
        outlet := o
        item := i
        opening_stock := opening
        inbound_qty := inbound
        consumed_qty := consumed
        returned_qty := returned
        expected_usage_qty := expectedUsage
        closing_stock := closing
        expected_closing_stock := expectedClosing
        gap_qty := closing - expectedClosing
        status := st }
  | _, _, _ => Except.error ReconcileError.InvalidRecord

/-- Sample rows used to instantiate the universally quantified theorems at
concrete inputs. -/
def rowMismatch : RawRow :=
  { tanggal := some "2026-10-01"
    outlet := some "Alfamart Kopo"
    spv := some "Andi"
    kota := some "Bandung"
    item := some "Teh"
    stock_awal := some ((10 : ℤ) : ℚ)
    stock_masuk := some ((5 : ℤ) : ℚ)
    qty_terpakai := some ((7 : ℤ) : ℚ)
    qty_sisa := some ((8 : ℤ) : ℚ)
    ideal_usage_qty := some ((6 : ℤ) : ℚ)
    retur_qty := some ((0 : ℤ) : ℚ)
    qty_sisa_seharusnya := some ((9 : ℤ) : ℚ)
    gap_qty_sisa := upstreamGap (some ((8 : ℤ) : ℚ)) (some ((9 : ℤ) : ℚ))
    so_flag := "Tidak Sesuai" }

/-- A second sample row, with matching status. -/
def rowMatch : RawRow :=
  { tanggal := some "2026-10-01"
    outlet := some "Alfamart Kopo"
    spv := some "Andi"
    kota := some "Bandung"
    item := some "Kopi"
    stock_awal := some ((4 : ℤ) : ℚ)
    stock_masuk := some ((0 : ℤ) : ℚ)
    qty_terpakai := some ((2 : ℤ) : ℚ)
    qty_sisa := some ((2 : ℤ) : ℚ)
    ideal_usage_qty := some ((2 : ℤ) : ℚ)
    retur_qty := some ((0 : ℤ) : ℚ)
    qty_sisa_seharusnya := some ((2 : ℤ) : ℚ)
    gap_qty_sisa := upstreamGap (some ((2 : ℤ) : ℚ)) (some ((2 : ℤ) : ℚ))
    so_flag := "Sesuai" }

/-- A raw row whose closing and expected-closing cells hold half-integer
values, exhibiting the interaction of upstream subtraction with the
independent per-column rounding. -/
def rowHalves : RawRow :=
  { tanggal := some "2026-10-01"
    outlet := some "Alfamart Kopo"
    spv := some "Andi"
    kota := some "Bandung"
    item := some "Gula"
    stock_awal := some ((3 : ℤ) : ℚ)
    stock_masuk := some ((0 : ℤ) : ℚ)
    qty_terpakai := some ((1 : ℤ) : ℚ)
    qty_sisa := some (3/2)
    ideal_usage_qty := some ((1 : ℤ) : ℚ)
    retur_qty := some ((0 : ℤ) : ℚ)
    qty_sisa_seharusnya := some (1/2)
    gap_qty_sisa := upstreamGap (some (3/2)) (some (1/2))
    so_flag := "Sesuai" }

/-- A raw row with absent identity cells but a mismatching status flag. -/
def rowNoIdentity : RawRow :=
  { tanggal := none
    outlet := none
    spv := none
    kota := none
    item := none
    stock_awal := none
    stock_masuk := none
    qty_terpakai := none
    qty_sisa := none
    ideal_usage_qty := none
    retur_qty := none
    qty_sisa_seharusnya := none
    gap_qty_sisa := none
    so_flag := "Tidak Sesuai" }

/-- A sample movement record with all identity fields present and both
consumption-comparison operands absent. -/
def recordBothAbsent : MovementRecord :=
  { date := some "2026-10-01"
    outlet := some "Alfamart Kopo"
    supervisor := some "Andi"
    city := some "Bandung"
    item := some "Teh"
    opening_stock := some ((10 : ℤ) : ℚ)
    inbound_qty := some ((5 : ℤ) : ℚ)
    consumed_qty := none
    returned_qty := some ((0 : ℤ) : ℚ)
    expected_usage_qty := none
    closing_stock := some ((8 : ℤ) : ℚ)
    expected_closing_stock := some ((9 : ℤ) : ℚ) }

/-- The executable rational floor agrees with the floor of the ordered
field structure. -/
theorem rat_floor_eq_intFloor (q : ℚ) : q.floor = ⌊q⌋ := by
  rw [Rat.floor_def', Rat.floor_def]

/-- Restatement of the rounding via the floor of the ordered field. -/
theorem roundHalfEven_def (q : ℚ) :
    roundHalfEven q =
      if q - ⌊q⌋ < 1/2 then ⌊q⌋
      else if 1/2 < q - ⌊q⌋ then ⌊q⌋ + 1
      else if ⌊q⌋ % 2 = 0 then ⌊q⌋ else ⌊q⌋ + 1 := by
  simp only [roundHalfEven, rat_floor_eq_intFloor]

/-- Rounding is the identity on integers. -/
theorem roundHalfEven_intCast (n : ℤ) : roundHalfEven ((n : ℤ) : ℚ) = n := by
  rw [roundHalfEven_def, Int.floor_intCast]
  norm_num

/-- Absent cells normalize to zero. -/
theorem normalizeNum_none : normalizeNum none = 0 := by
  have h := roundHalfEven_intCast 0
  simpa [normalizeNum] using h

/-- Floor of one half. -/
theorem floor_half : ⌊(1/2 : ℚ)⌋ = 0 := by
  rw [Int.floor_eq_iff]
  norm_num

/-- Floor of three halves. -/
theorem floor_threeHalves : ⌊(3/2 : ℚ)⌋ = 1 := by
  rw [Int.floor_eq_iff]
  norm_num

/-- One half rounds down to the even integer 0. -/
theorem roundHalfEven_half : roundHalfEven (1/2) = 0 := by
  rw [roundHalfEven_def, floor_half]
  norm_num

/-- Three halves rounds up to the even integer 2. -/
theorem roundHalfEven_threeHalves : roundHalfEven (3/2) = 2 := by
  rw [roundHalfEven_def, floor_threeHalves]
  norm_num

/-- C5: numeric-field normalization rounds every value to the nearest
integer with one consistent convention, round-half-to-even: the rounded
value is never more than one half away from the input, no integer is
strictly closer, a value at an exact half-integer boundary rounds to the
even neighbour, and absent values normalize to the integer zero. -/
theorem numeric_normalization_half_to_even (q : ℚ) :
    (∀ m : ℤ, |((roundHalfEven q : ℤ) : ℚ) - q| ≤ |((m : ℤ) : ℚ) - q|) ∧
    |((roundHalfEven q : ℤ) : ℚ) - q| ≤ 1/2 ∧
    (q - ⌊q⌋ = 1/2 → Even (roundHalfEven q)) ∧
    normalizeNum (some q) = roundHalfEven q ∧
    normalizeNum none = 0 := by
  have hfl : ((⌊q⌋ : ℤ) : ℚ) ≤ q := Int.floor_le q
  have hfu : q < ((⌊q⌋ : ℤ) : ℚ) + 1 := Int.lt_floor_add_one q
  have key : ∀ m : ℤ, ((m : ℤ) : ℚ) ≤ ⌊q⌋ ∨ ((⌊q⌋ : ℤ) : ℚ) + 1 ≤ m := by
    intro m
    rcases le_or_lt m ⌊q⌋ with hm | hm
    · exact Or.inl (by exact_mod_cast hm)
    · right
      have : ⌊q⌋ + 1 ≤ m := hm
      exact_mod_cast this
  rcases lt_trichotomy (q - ((⌊q⌋ : ℤ) : ℚ)) (1/2) with h | h | h
  · have hr : roundHalfEven q = ⌊q⌋ := by
      rw [roundHalfEven_def, if_pos h]
    refine ⟨?_, ?_, ?_, rfl, normalizeNum_none⟩
    · intro m
      rw [hr]
      rcases key m with hm | hm
      · rw [abs_of_nonpos (by linarith), abs_of_nonpos (by linarith)]
        linarith
      · rw [abs_of_nonpos (by linarith), abs_of_nonneg (by linarith)]
        linarith
    · rw [hr, abs_of_nonpos (by linarith)]
      linarith
    · intro h2
      exact absurd h2 (by linarith)
  · have hr : roundHalfEven q =
        if ⌊q⌋ % 2 = 0 then ⌊q⌋ else ⌊q⌋ + 1 := by
      rw [roundHalfEven_def, if_neg (by linarith), if_neg (by linarith)]
    have habs : |((roundHalfEven q : ℤ) : ℚ) - q| = 1/2 := by
      by_cases hp : ⌊q⌋ % 2 = 0
      · rw [hr, if_pos hp, abs_of_nonpos (by linarith)]
        linarith
      · rw [hr, if_neg hp]
        push_cast
        rw [abs_of_nonneg (by linarith)]
        linarith
    refine ⟨?_, by rw [habs], ?_, rfl, normalizeNum_none⟩
    · intro m
      rw [habs]
      rcases key m with hm | hm
      · rw [abs_of_nonpos (by linarith)]
        linarith
      · rw [abs_of_nonneg (by linarith)]
        linarith
    · intro _
      by_cases hp : ⌊q⌋ % 2 = 0
      · rw [hr, if_pos hp]
        exact Int.even_iff.mpr hp
      · rw [hr, if_neg hp]
        have hodd : Odd ⌊q⌋ := by
          rcases Int.even_or_odd ⌊q⌋ with he | ho
          · exact absurd (Int.even_iff.mp he) hp
          · exact ho
        exact Odd.add_one hodd
  · have hr : roundHalfEven q = ⌊q⌋ + 1 := by
      rw [roundHalfEven_def, if_neg (by linarith), if_pos h]
    refine ⟨?_, ?_, ?_, rfl, normalizeNum_none⟩
    · intro m
      rw [hr]
      push_cast
      rcases key m with hm | hm
      · rw [abs_of_nonneg (by linarith), abs_of_nonpos (by linarith)]
        linarith
      · rw [abs_of_nonneg (by linarith), abs_of_nonneg (by linarith)]
        linarith
    · rw [hr]
      push_cast
      rw [abs_of_nonneg (by linarith)]
      linarith
    · intro h2
      exact absurd h2 (by linarith)

/-- Instantiation of the rounding characterization at the boundary value
one half, where the even convention is visible. -/
theorem numeric_normalization_half_to_even_witness :
    Even (roundHalfEven (1/2)) ∧
    |((roundHalfEven (1/2) : ℤ) : ℚ) - 1/2| ≤ 1/2 := by
  have h := numeric_normalization_half_to_even (1/2)
  refine ⟨h.2.2.1 ?_, h.2.1⟩
  rw [floor_half]
  norm_num

/-- Unfolding of reconcile under the CONSUMPTION policy when the identity
fields are present. -/
theorem reconcile_consumption_eq (d o i : String) (sv c : Option String)
    (k1 k2 k3 k4 k5 k6 k7 : Option ℚ) :
    reconcile ⟨some d, some o, sv, c, some i, k1, k2, k3, k4, k5, k6, k7⟩
        Policy.CONSUMPTION =
      Except.ok
        { date := d, outlet := o, item := i,
          opening_stock := normalizeNum k1,
          inbound_qty := normalizeNum k2,
          consumed_qty := normalizeNum k3,
          returned_qty := normalizeNum k4,
          expected_usage_qty := normalizeNum k5,
          closing_stock := normalizeNum k6,
          expected_closing_stock := normalizeNum k7,
          gap_qty := normalizeNum k6 - normalizeNum k7,
          status := if normalizeNum k3 = normalizeNum k5 then Status.MATCH
                    else Status.MISMATCH } := rfl

/-- Unfolding of reconcile under the CLOSING_STOCK policy when the
identity fields are present. -/
theorem reconcile_closing_eq (d o i : String) (sv c : Option String)
    (k1 k2 k3 k4 k5 k6 k7 : Option ℚ) :
    reconcile ⟨some d, some o, sv, c, some i, k1, k2, k3, k4, k5, k6, k7⟩
        Policy.CLOSING_STOCK =
      Except.ok
        { date := d, outlet := o, item := i,
          opening_stock := normalizeNum k1,
          inbound_qty := normalizeNum k2,
          consumed_qty := normalizeNum k3,
          returned_qty := normalizeNum k4,
          expected_usage_qty := normalizeNum k5,
          closing_stock := normalizeNum k6,
          expected_closing_stock := normalizeNum k7,
          gap_qty := normalizeNum k6 - normalizeNum k7,
          status := if normalizeNum k6 = normalizeNum k7 then Status.MATCH
                    else Status.MISMATCH } := rfl

/-- C1: under the CONSUMPTION policy the reconciled status is MATCH
(rendered "Sesuai") exactly when the normalized consumed quantity equals
the normalized expected-usage quantity, and when both comparison operands
are absent (both normalized to zero) the status is MATCH. -/
theorem consumption_status_spec (r : MovementRecord) (d o i : String)
    (hd : r.date = some d) (ho : r.outlet = some o) (hi : r.item = some i) :
    ∃ out : DerivedRecord, reconcile r Policy.CONSUMPTION = Except.ok out ∧
      (out.status = Status.MATCH ↔
        normalizeNum r.consumed_qty = normalizeNum r.expected_usage_qty) ∧
      (out.status.label = "Sesuai" ↔
        normalizeNum r.consumed_qty = normalizeNum r.expected_usage_qty) ∧
      ((r.consumed_qty = none ∧ r.expected_usage_qty = none) →
        out.status = Status.MATCH) := by
  obtain ⟨rd, ro, rsv, rc, ri, k1, k2, k3, k4, k5, k6, k7⟩ := r
  rcases rd with _ | d2
  · exact Option.noConfusion hd
  rcases ro with _ | o2
  · exact Option.noConfusion ho
  rcases ri with _ | i2
  · exact Option.noConfusion hi
  refine ⟨_, reconcile_consumption_eq d2 o2 i2 rsv rc k1 k2 k3 k4 k5 k6 k7,
    ?_, ?_, ?_⟩ <;> dsimp only
  · by_cases hc : normalizeNum k3 = normalizeNum k5
    · rw [if_pos hc]
      simp [hc]
    · rw [if_neg hc]
      simp [hc]
  · by_cases hc : normalizeNum k3 = normalizeNum k5
    · rw [if_pos hc]
      simp [Status.label, hc]
    · rw [if_neg hc]
      simp [Status.label, hc]
  · rintro ⟨h1, h2⟩
    subst h1
    subst h2
    rw [if_pos rfl]

/-- Instantiation of the consumption-status theorem at a record with both
comparison operands absent. -/
theorem consumption_status_spec_witness :
    ∃ out : DerivedRecord,
      reconcile recordBothAbsent Policy.CONSUMPTION = Except.ok out ∧
      out.status = Status.MATCH := by
  obtain ⟨out, h1, h2, h3, h4⟩ :=
    consumption_status_spec recordBothAbsent "2026-10-01" "Alfamart Kopo" "Teh"
      rfl rfl rfl
  exact ⟨out, h1, h4 ⟨rfl, rfl⟩⟩

/-- C2 counterexample: a row whose upstream gap cell is exactly the raw
difference of closing and expected-closing stock, yet after the per-column
null-fill and rounding the displayed Selisih Sisa (1) differs from
Sisa Stok Akhir minus Sisa Seharusnya (2 - 0). -/
theorem gap_after_rounding_counterexample :
    rowHalves.gap_qty_sisa =
      upstreamGap rowHalves.qty_sisa rowHalves.qty_sisa_seharusnya ∧
    ¬ ((processRow rowHalves).selisihSisa =
        (processRow rowHalves).sisaStokAkhir -
          (processRow rowHalves).sisaSeharusnya) := by
  refine ⟨rfl, ?_⟩
  have h1 : (processRow rowHalves).sisaStokAkhir = 2 := roundHalfEven_threeHalves
  have h2 : (processRow rowHalves).sisaSeharusnya = 0 := roundHalfEven_half
  have h3 : (processRow rowHalves).selisihSisa = 1 := by
    show roundHalfEven ((3/2 : ℚ) - 1/2) = 1
    have e : (3/2 : ℚ) - 1/2 = ((1 : ℤ) : ℚ) := by norm_num
    rw [e]
    exact roundHalfEven_intCast 1
  rw [h1, h2, h3]
  decide

/-- C2 amended: the gap identity holds after processing whenever the raw
closing and expected-closing cells are present and integral (so the
independent rounding is the identity on them), and it always holds for the
spec's reconcile, which computes the gap after normalization. -/
theorem gap_equation_amended (r : RawRow) (a b : ℤ)
    (hs : r.qty_sisa = some ((a : ℤ) : ℚ))
    (he : r.qty_sisa_seharusnya = some ((b : ℤ) : ℚ))
    (hg : r.gap_qty_sisa = upstreamGap r.qty_sisa r.qty_sisa_seharusnya)
    (m : MovementRecord) (p : Policy) (out : DerivedRecord)
    (hout : reconcile m p = Except.ok out) :
    (processRow r).selisihSisa =
      (processRow r).sisaStokAkhir - (processRow r).sisaSeharusnya ∧
    out.gap_qty = out.closing_stock - out.expected_closing_stock := by
  constructor
  · have h1 : (processRow r).sisaStokAkhir = a := by
      show normalizeNum r.qty_sisa = a
      rw [hs]
      exact roundHalfEven_intCast a
    have h2 : (processRow r).sisaSeharusnya = b := by
      show normalizeNum r.qty_sisa_seharusnya = b
      rw [he]
      exact roundHalfEven_intCast b
    have h3 : (processRow r).selisihSisa = a - b := by
      show normalizeNum r.gap_qty_sisa = a - b
      rw [hg, hs, he]
      show normalizeNum (some (((a : ℤ) : ℚ) - ((b : ℤ) : ℚ))) = a - b
      have e : ((a : ℤ) : ℚ) - ((b : ℤ) : ℚ) = (((a - b : ℤ)) : ℚ) := by
        push_cast
        ring
      rw [e]
      exact roundHalfEven_intCast (a - b)
    rw [h1, h2, h3]
  · obtain ⟨rd, ro, rsv, rc, ri, k1, k2, k3, k4, k5, k6, k7⟩ := m
    rcases rd with _ | d <;> rcases ro with _ | o <;> rcases ri with _ | i <;>
      try exact Except.noConfusion hout
    cases p
    · rw [reconcile_closing_eq] at hout
      have hlit := Except.ok.inj hout
      subst hlit
      rfl
    · rw [reconcile_consumption_eq] at hout
      have hlit := Except.ok.inj hout
      subst hlit
      rfl

/-- Instantiation of the amended gap identity at a concrete integral row
and record. -/
theorem gap_equation_amended_witness :
    (processRow rowMismatch).selisihSisa =
      (processRow rowMismatch).sisaStokAkhir -
        (processRow rowMismatch).sisaSeharusnya ∧
    ∃ out : DerivedRecord,
      reconcile recordBothAbsent Policy.CONSUMPTION = Except.ok out ∧
      out.gap_qty = out.closing_stock - out.expected_closing_stock := by
  have h := gap_equation_amended rowMismatch 8 9 rfl rfl rfl
    recordBothAbsent Policy.CONSUMPTION _ rfl
  exact ⟨h.1, _, rfl, h.2⟩

/-- C3: the aggregate mismatch count equals the number of rows whose
status flag is "Tidak Sesuai", and it is invariant under any permutation
of the input sequence. -/
theorem mismatch_count_spec (rows otherRows : List RawRow)
    (hperm : rows.Perm otherRows) :
    aggregate_mismatch_count rows =
      (rows.filter (fun r => r.so_flag == "Tidak Sesuai")).length ∧
    aggregate_mismatch_count rows = aggregate_mismatch_count otherRows := by
  constructor
  · exact List.countP_eq_length_filter _ rows
  · exact hperm.countP_eq _

/-- Instantiation of the mismatch-count theorem at a concrete two-row
batch and its swap. -/
theorem mismatch_count_spec_witness :
    aggregate_mismatch_count [rowMismatch, rowMatch] = 1 ∧
    aggregate_mismatch_count [rowMismatch, rowMatch] =
      aggregate_mismatch_count [rowMatch, rowMismatch] := by
  have h := mismatch_count_spec [rowMismatch, rowMatch] [rowMatch, rowMismatch]
    (List.Perm.swap rowMatch rowMismatch [])
  refine ⟨?_, h.2⟩
  rw [h.1]
  rfl

/-- C4: processing a row with any numeric cell absent gives exactly the
same output as processing it with that cell set to zero — for each of the
eight numeric columns of the pipeline, for the mismatch-count
contribution, and for every numeric field of the spec's reconcile. -/
theorem null_numeric_equals_zero (r : RawRow) (m : MovementRecord) (p : Policy) :
    processRow { r with stock_awal := none } =
      processRow { r with stock_awal := some 0 } ∧
    processRow { r with stock_masuk := none } =
      processRow { r with stock_masuk := some 0 } ∧
    processRow { r with qty_terpakai := none } =
      processRow { r with qty_terpakai := some 0 } ∧
    processRow { r with qty_sisa := none } =
      processRow { r with qty_sisa := some 0 } ∧
    processRow { r with ideal_usage_qty := none } =
      processRow { r with ideal_usage_qty := some 0 } ∧
    processRow { r with retur_qty := none } =
      processRow { r with retur_qty := some 0 } ∧
    processRow { r with qty_sisa_seharusnya := none } =
      processRow { r with qty_sisa_seharusnya := some 0 } ∧
    processRow { r with gap_qty_sisa := none } =
      processRow { r with gap_qty_sisa := some 0 } ∧
    aggregate_mismatch_count [{ r with stock_awal := none }] =
      aggregate_mismatch_count [{ r with stock_awal := some 0 }] ∧
    reconcile { m with opening_stock := none } p =
      reconcile { m with opening_stock := some 0 } p ∧
    reconcile { m with inbound_qty := none } p =
      reconcile { m with inbound_qty := some 0 } p ∧
    reconcile { m with consumed_qty := none } p =
      reconcile { m with consumed_qty := some 0 } p ∧
    reconcile { m with returned_qty := none } p =
      reconcile { m with returned_qty := some 0 } p ∧
    reconcile { m with expected_usage_qty := none } p =
      reconcile { m with expected_usage_qty := some 0 } p ∧
    reconcile { m with closing_stock := none } p =
      reconcile { m with closing_stock := some 0 } p ∧
    reconcile { m with expected_closing_stock := none } p =
      reconcile { m with expected_closing_stock := some 0 } p := by
  obtain ⟨md, mo, msv, mc, mi, k1, k2, k3, k4, k5, k6, k7⟩ := m
  refine ⟨rfl, rfl, rfl, rfl, rfl, rfl, rfl, rfl, rfl,
    ?_, ?_, ?_, ?_, ?_, ?_, ?_⟩ <;>
    (rcases md with _ | d <;> rcases mo with _ | o <;> rcases mi with _ | i <;>
      cases p <;> rfl)

/-- C6 counterexample: a row with absent date, outlet and item cells and
a "Tidak Sesuai" flag still contributes 1 to the aggregate mismatch count;
the pipeline does not exclude identity-less records. -/
theorem missing_identity_still_counted :
    rowNoIdentity.outlet = none ∧ rowNoIdentity.item = none ∧
    rowNoIdentity.tanggal = none ∧
    aggregate_mismatch_count [rowNoIdentity] = 1 :=
  ⟨rfl, rfl, rfl, rfl⟩

/-- C6 amended: the spec's reconcile fails with InvalidRecord exactly
when date, outlet or item is absent and never errors on numeric fields
(they default to zero), but the application's aggregate mismatch count
filters only on the status flag, so records missing outlet and item are
counted all the same, not excluded. -/
theorem reconcile_identity_validation (m : MovementRecord) (p : Policy)
    (r : RawRow) :
    ((m.date = none ∨ m.outlet = none ∨ m.item = none) →
      reconcile m p = Except.error ReconcileError.InvalidRecord) ∧
    (∀ d o i, m.date = some d → m.outlet = some o → m.item = some i →
      ∃ out, reconcile m p = Except.ok out) ∧
    aggregate_mismatch_count [{ r with outlet := none, item := none }] =
      aggregate_mismatch_count [r] := by
  obtain ⟨md, mo, msv, mc, mi, k1, k2, k3, k4, k5, k6, k7⟩ := m
  refine ⟨?_, ?_, rfl⟩
  · intro h
    rcases md with _ | d <;> rcases mo with _ | o <;> rcases mi with _ | i <;>
      first
        | rfl
        | (rcases h with h | h | h <;> exact Option.noConfusion h)
  · intro d o i hd ho hi
    rcases md with _ | d2
    · exact Option.noConfusion hd
    rcases mo with _ | o2
    · exact Option.noConfusion ho
    rcases mi with _ | i2
    · exact Option.noConfusion hi
    cases p
    · exact ⟨_, rfl⟩
    · exact ⟨_, rfl⟩

/-- Instantiation of the identity-validation theorem at concrete
records. -/
theorem reconcile_identity_validation_witness :
    reconcile { recordBothAbsent with outlet := none } Policy.CONSUMPTION =
      Except.error ReconcileError.InvalidRecord ∧
    (∃ out, reconcile recordBothAbsent Policy.CONSUMPTION = Except.ok out) ∧
    aggregate_mismatch_count [{ rowMismatch with outlet := none, item := none }] =
      aggregate_mismatch_count [rowMismatch] := by
  have h1 := reconcile_identity_validation
    { recordBothAbsent with outlet := none } Policy.CONSUMPTION rowMismatch
  have h2 := reconcile_identity_validation recordBothAbsent Policy.CONSUMPTION
    rowMismatch
  exact ⟨h1.1 (Or.inr (Or.inl rfl)),
    h2.2.1 "2026-10-01" "Alfamart Kopo" "Teh" rfl rfl rfl, h2.2.2⟩

/-- C7: an empty filtered input set yields the empty-result warning, an
outcome distinct from a configuration error and from any rendered report
(so no further computation is performed). -/
theorem empty_input_distinct_warning :
    runPipeline [] = PipelineOutput.emptyWarning ∧
    (∀ vs : List String,
      PipelineOutput.emptyWarning ≠ PipelineOutput.configError vs) ∧
    (∀ (c : Nat) (t : List ProcessedRow),
      PipelineOutput.emptyWarning ≠ PipelineOutput.report c t) := by
  refine ⟨rfl, ?_, ?_⟩
  · intro vs h
    exact PipelineOutput.noConfusion h
  · intro c t h
    exact PipelineOutput.noConfusion h

/-- C8: the reconciliation pipeline is a pure, deterministic function of
its input rows: equal inputs give equal pipeline outputs, equal mismatch
counts and equal derived record lists. -/
theorem pipeline_deterministic (rows1 rows2 : List RawRow)
    (h : rows1 = rows2) :
    runPipeline rows1 = runPipeline rows2 ∧
    aggregate_mismatch_count rows1 = aggregate_mismatch_count rows2 ∧
    rows1.map processRow = rows2.map processRow := by
  subst h
  exact ⟨rfl, rfl, rfl⟩

/-- Instantiation of determinism at a concrete two-row batch. -/
theorem pipeline_deterministic_witness :
    runPipeline [rowMatch, rowMismatch] = runPipeline [rowMatch, rowMismatch] ∧
    aggregate_mismatch_count [rowMatch, rowMismatch] =
      aggregate_mismatch_count [rowMatch, rowMismatch] ∧
    [rowMatch, rowMismatch].map processRow =
      [rowMatch, rowMismatch].map processRow :=
  pipeline_deterministic [rowMatch, rowMismatch] [rowMatch, rowMismatch] rfl

/-- C9: numeric normalization modifies only the eight numeric columns;
the identity and status columns (Tanggal, Outlet, SPV, Kota, Item, Status
Stok) pass through unchanged. -/
theorem normalization_identity_frame (r : RenamedRow) :
    (normalizeRow r).tanggal = r.tanggal ∧
    (normalizeRow r).outlet = r.outlet ∧
    (normalizeRow r).spv = r.spv ∧
    (normalizeRow r).kota = r.kota ∧
    (normalizeRow r).item = r.item ∧
    (normalizeRow r).statusStok = r.statusStok ∧
    (normalizeRow r).stokAwalHari = normalizeNum r.stokAwalHari ∧
    (normalizeRow r).barangMasukDC = normalizeNum r.barangMasukDC ∧
    (normalizeRow r).terpakaiTerjual = normalizeNum r.terpakaiTerjual ∧
    (normalizeRow r).sisaStokAkhir = normalizeNum r.sisaStokAkhir ∧
    (normalizeRow r).pemakaianSeharusnya = normalizeNum r.pemakaianSeharusnya ∧
    (normalizeRow r).barangRetur = normalizeNum r.barangRetur ∧
    (normalizeRow r).sisaSeharusnya = normalizeNum r.sisaSeharusnya ∧
    (normalizeRow r).selisihSisa = normalizeNum r.selisihSisa :=
  ⟨rfl, rfl, rfl, rfl, rfl, rfl, rfl, rfl, rfl, rfl, rfl, rfl, rfl, rfl⟩

/-- Closed form of one entry of the style list. -/
theorem highlight_getD (r : ProcessedRow) (i : ℕ)
    (hb : i < tableColumns.length) :
    (highlight_tidak_sesuai r).getD i "" =
      if r.statusStok = "Tidak Sesuai" ∧ tableColumns.getD i "" ∈ highlight_cols
      then highlightStyle else "" := by
  rw [highlight_tidak_sesuai, List.getD_eq_getElem?_getD, List.getElem?_map,
    List.getElem?_eq_getElem hb, List.getD_eq_getElem?_getD,
    List.getElem?_eq_getElem hb]
  simp

/-- C10: the style list has one entry per table column; an entry carries
the highlight style exactly when the row's status is "Tidak Sesuai" and
the column is one of the six highlight columns, every other entry is the
empty style, and styling leaves all data values unchanged. -/
theorem highlight_rule (r : ProcessedRow) (i : ℕ)
    (hb : i < tableColumns.length) :
    (highlight_tidak_sesuai r).length = tableColumns.length ∧
    ((highlight_tidak_sesuai r).getD i "" = highlightStyle ↔
      (r.statusStok = "Tidak Sesuai" ∧
        tableColumns.getD i "" ∈ highlight_cols)) ∧
    ((highlight_tidak_sesuai r).getD i "" = highlightStyle ∨
      (highlight_tidak_sesuai r).getD i "" = "") ∧
    (∀ rows : List ProcessedRow, (styleTable rows).map Prod.fst = rows) := by
  refine ⟨by simp [highlight_tidak_sesuai], ?_, ?_, ?_⟩
  · rw [highlight_getD r i hb]
    by_cases hc : r.statusStok = "Tidak Sesuai" ∧
        tableColumns.getD i "" ∈ highlight_cols
    · rw [if_pos hc]
      exact iff_of_true rfl hc
    · rw [if_neg hc]
      exact iff_of_false (by decide) hc
  · rw [highlight_getD r i hb]
    by_cases hc : r.statusStok = "Tidak Sesuai" ∧
        tableColumns.getD i "" ∈ highlight_cols
    · rw [if_pos hc]
      exact Or.inl rfl
    · rw [if_neg hc]
      exact Or.inr rfl
  · intro rows
    have hcomp :
        (Prod.fst ∘ fun q : ProcessedRow => (q, highlight_tidak_sesuai q)) =
          fun q : ProcessedRow => q := rfl
    simp [styleTable, hcomp]

/-- Instantiation of the highlight rule at the Status Stok column of a
mismatching row. -/
theorem highlight_rule_witness :
    (5 : ℕ) < tableColumns.length ∧
    ((highlight_tidak_sesuai (processRow rowMismatch)).getD 5 "" =
        highlightStyle ↔
      ((processRow rowMismatch).statusStok = "Tidak Sesuai" ∧
        tableColumns.getD 5 "" ∈ highlight_cols)) := by
  have h := highlight_rule (processRow rowMismatch) 5 (by simp [tableColumns])
  exact ⟨by simp [tableColumns], h.2.1⟩

end MovementDaily
